import Mathlib

/-!
# Verification of the `sevensegment` driver (`src/lib.rs`)

Shallow embedding of the Rust crate `sevensegment`: a driver for a seven
segment LED display, generic over seven `OutputPin` resources.

Rust mutable state is purified by explicit world passing: a Rust method
`fn f(&mut self) -> Result<(), E>` on a pin becomes a Lean function
`W → W × Except E Unit`, where `W` is the state the pin may act on.  The
world survives a failing call, exactly as `&mut` state does in Rust.  A
pin handle is the (pure) pair of its `set_high`/`set_low` behaviours; any
internal pin state lives inside `W`, so pins that share state (for
instance a test double logging every write into a common journal) are
expressible, as they are in Rust via interior mutability.
-/

/-- Embedding of the `embedded_hal::digital::v2::OutputPin` trait: the
capability to drive a line high or low, fallibly with error type `ε`,
acting on a world `W`. -/
structure OutputPin (W : Type) (ε : Type) where
  set_high : W → W × Except ε Unit
  set_low : W → W × Except ε Unit

/-- Embedding of the Rust struct `SevenSeg<A, B, C, D, E, F, G>`: seven
owned pin handles, one per segment, each with its own error type. -/
structure SevenSeg (W εa εb εc εd εe εf εg : Type) where
  seg_a : OutputPin W εa
  seg_b : OutputPin W εb
  seg_c : OutputPin W εc
  seg_d : OutputPin W εd
  seg_e : OutputPin W εe
  seg_f : OutputPin W εf
  seg_g : OutputPin W εg

variable {W εa εb εc εd εe εf εg : Type}

/-- Embedding of `SevenSeg::new`: takes ownership of the seven pins. -/
def SevenSeg.new (a : OutputPin W εa) (b : OutputPin W εb) (c : OutputPin W εc)
    (d : OutputPin W εd) (e : OutputPin W εe) (f : OutputPin W εf) (g : OutputPin W εg) :
    SevenSeg W εa εb εc εd εe εf εg :=
  { seg_a := a, seg_b := b, seg_c := c, seg_d := d, seg_e := e, seg_f := f, seg_g := g }

/-- Embedding of `SevenSeg::release`: consumes the display and returns the
seven pins in construction order. -/
def SevenSeg.release (s : SevenSeg W εa εb εc εd εe εf εg) :
    OutputPin W εa × OutputPin W εb × OutputPin W εc × OutputPin W εd ×
      OutputPin W εe × OutputPin W εf × OutputPin W εg :=
  (s.seg_a, s.seg_b, s.seg_c, s.seg_d, s.seg_e, s.seg_f, s.seg_g)

/-- Embedding of Rust `Result<(), E>.map_err(|_| ())`. -/
def discardErr {ε : Type} : Except ε Unit → Except Unit Unit
  | .ok u => .ok u
  | .error _ => .error ()

/-- Embedding of the method `SevenSeg::seg_a`: drive segment `a`'s line
high if `state`, low otherwise, collapsing the pin's error to `()`.
(The Rust method and field share the name `seg_a`; Lean keeps the field
name, so the method carries a `_set` tail.) -/
def SevenSeg.seg_a_set (s : SevenSeg W εa εb εc εd εe εf εg) (state : Bool) (w : W) :
    W × Except Unit Unit :=
  if state then
    let p := s.seg_a.set_high w
    (p.1, discardErr p.2)
  else
    let p := s.seg_a.set_low w
    (p.1, discardErr p.2)

/-- Embedding of the method `SevenSeg::seg_b`. -/
def SevenSeg.seg_b_set (s : SevenSeg W εa εb εc εd εe εf εg) (state : Bool) (w : W) :
    W × Except Unit Unit :=
  if state then
    let p := s.seg_b.set_high w
    (p.1, discardErr p.2)
  else
    let p := s.seg_b.set_low w
    (p.1, discardErr p.2)

/-- Embedding of the method `SevenSeg::seg_c`. -/
def SevenSeg.seg_c_set (s : SevenSeg W εa εb εc εd εe εf εg) (state : Bool) (w : W) :
    W × Except Unit Unit :=
  if state then
    let p := s.seg_c.set_high w
    (p.1, discardErr p.2)
  else
    let p := s.seg_c.set_low w
    (p.1, discardErr p.2)

/-- Embedding of the method `SevenSeg::seg_d`. -/
def SevenSeg.seg_d_set (s : SevenSeg W εa εb εc εd εe εf εg) (state : Bool) (w : W) :
    W × Except Unit Unit :=
  if state then
    let p := s.seg_d.set_high w
    (p.1, discardErr p.2)
  else
    let p := s.seg_d.set_low w
    (p.1, discardErr p.2)

/-- Embedding of the method `SevenSeg::seg_e`. -/
def SevenSeg.seg_e_set (s : SevenSeg W εa εb εc εd εe εf εg) (state : Bool) (w : W) :
    W × Except Unit Unit :=
  if state then
    let p := s.seg_e.set_high w
    (p.1, discardErr p.2)
  else
    let p := s.seg_e.set_low w
    (p.1, discardErr p.2)

/-- Embedding of the method `SevenSeg::seg_f`. -/
def SevenSeg.seg_f_set (s : SevenSeg W εa εb εc εd εe εf εg) (state : Bool) (w : W) :
    W × Except Unit Unit :=
  if state then
    let p := s.seg_f.set_high w
    (p.1, discardErr p.2)
  else
    let p := s.seg_f.set_low w
    (p.1, discardErr p.2)

/-- Embedding of the method `SevenSeg::seg_g`. -/
def SevenSeg.seg_g_set (s : SevenSeg W εa εb εc εd εe εf εg) (state : Bool) (w : W) :
    W × Except Unit Unit :=
  if state then
    let p := s.seg_g.set_high w
    (p.1, discardErr p.2)
  else
    let p := s.seg_g.set_low w
    (p.1, discardErr p.2)

/-- Embedding of the Rust `?` operator in this world-passing setting: run
the continuation on success, return the error with the current world on
failure. -/
def qtry (p : W × Except Unit Unit) (k : W → W × Except Unit Unit) : W × Except Unit Unit :=
  match p with
  | (w, .ok _) => k w
  | (w, .error e) => (w, .error e)

/-- Embedding of `SevenSeg::clear`: pull all seven segments low in order
`a, b, c, d, e, f, g`, short-circuiting on the first failure. -/
def SevenSeg.clear (s : SevenSeg W εa εb εc εd εe εf εg) (w : W) : W × Except Unit Unit :=
  qtry (s.seg_a_set false w) fun w =>
  qtry (s.seg_b_set false w) fun w =>
  qtry (s.seg_c_set false w) fun w =>
  qtry (s.seg_d_set false w) fun w =>
  qtry (s.seg_e_set false w) fun w =>
  qtry (s.seg_f_set false w) fun w =>
  s.seg_g_set false w

/-- Embedding of `SevenSeg::display`: the sixteen hexadecimal digit arms
of the Rust `match num`, with the wildcard arm delegating to `clear`.
The Rust input is `u8`; it is embedded as `Nat`, on which the sixteen
literal patterns and the wildcard match exactly as they do on `u8`
values (no arithmetic is performed on `num`). -/
def SevenSeg.display (s : SevenSeg W εa εb εc εd εe εf εg) (num : Nat) (w : W) :
    W × Except Unit Unit :=
  match num with
  | 0 =>
    qtry (s.seg_a_set true w) fun w =>
    qtry (s.seg_b_set true w) fun w =>
    qtry (s.seg_c_set true w) fun w =>
    qtry (s.seg_d_set true w) fun w =>
    qtry (s.seg_e_set true w) fun w =>
    qtry (s.seg_f_set true w) fun w =>
    s.seg_g_set false w
  | 1 =>
    qtry (s.seg_a_set false w) fun w =>
    qtry (s.seg_b_set false w) fun w =>
    qtry (s.seg_c_set false w) fun w =>
    qtry (s.seg_d_set false w) fun w =>
    qtry (s.seg_e_set true w) fun w =>
    qtry (s.seg_f_set true w) fun w =>
    s.seg_g_set false w
  | 2 =>
    qtry (s.seg_a_set true w) fun w =>
    qtry (s.seg_b_set true w) fun w =>
    qtry (s.seg_c_set false w) fun w =>
    qtry (s.seg_d_set true w) fun w =>
    qtry (s.seg_e_set true w) fun w =>
    qtry (s.seg_f_set false w) fun w =>
    s.seg_g_set true w
  | 3 =>
    qtry (s.seg_a_set true w) fun w =>
    qtry (s.seg_b_set false w) fun w =>
    qtry (s.seg_c_set false w) fun w =>
    qtry (s.seg_d_set true w) fun w =>
    qtry (s.seg_e_set true w) fun w =>
    qtry (s.seg_f_set true w) fun w =>
    s.seg_g_set true w
  | 4 =>
    qtry (s.seg_a_set false w) fun w =>
    qtry (s.seg_b_set false w) fun w =>
    qtry (s.seg_c_set true w) fun w =>
    qtry (s.seg_d_set false w) fun w =>
    qtry (s.seg_e_set true w) fun w =>
    qtry (s.seg_f_set true w) fun w =>
    s.seg_g_set true w
  | 5 =>
    qtry (s.seg_a_set true w) fun w =>
    qtry (s.seg_b_set false w) fun w =>
    qtry (s.seg_c_set true w) fun w =>
    qtry (s.seg_d_set true w) fun w =>
    qtry (s.seg_e_set false w) fun w =>
    qtry (s.seg_f_set true w) fun w =>
    s.seg_g_set true w
  | 6 =>
    qtry (s.seg_a_set true w) fun w =>
    qtry (s.seg_b_set true w) fun w =>
    qtry (s.seg_c_set true w) fun w =>
    qtry (s.seg_d_set true w) fun w =>
    qtry (s.seg_e_set false w) fun w =>
    qtry (s.seg_f_set true w) fun w =>
    s.seg_g_set true w
  | 7 =>
    qtry (s.seg_a_set false w) fun w =>
    qtry (s.seg_b_set false w) fun w =>
    qtry (s.seg_c_set false w) fun w =>
    qtry (s.seg_d_set true w) fun w =>
    qtry (s.seg_e_set true w) fun w =>
    qtry (s.seg_f_set true w) fun w =>
    s.seg_g_set false w
  | 8 =>
    qtry (s.seg_a_set true w) fun w =>
    qtry (s.seg_b_set true w) fun w =>
    qtry (s.seg_c_set true w) fun w =>
    qtry (s.seg_d_set true w) fun w =>
    qtry (s.seg_e_set true w) fun w =>
    qtry (s.seg_f_set true w) fun w =>
    s.seg_g_set true w
  | 9 =>
    qtry (s.seg_a_set true w) fun w =>
    qtry (s.seg_b_set false w) fun w =>
    qtry (s.seg_c_set true w) fun w =>
    qtry (s.seg_d_set true w) fun w =>
    qtry (s.seg_e_set true w) fun w =>
    qtry (s.seg_f_set true w) fun w =>
    s.seg_g_set true w
  | 10 =>
    qtry (s.seg_a_set false w) fun w =>
    qtry (s.seg_b_set true w) fun w =>
    qtry (s.seg_c_set true w) fun w =>
    qtry (s.seg_d_set true w) fun w =>
    qtry (s.seg_e_set true w) fun w =>
    qtry (s.seg_f_set true w) fun w =>
    s.seg_g_set true w
  | 11 =>
    qtry (s.seg_a_set true w) fun w =>
    qtry (s.seg_b_set true w) fun w =>
    qtry (s.seg_c_set true w) fun w =>
    qtry (s.seg_d_set false w) fun w =>
    qtry (s.seg_e_set false w) fun w =>
    qtry (s.seg_f_set true w) fun w =>
    s.seg_g_set true w
  | 12 =>
    qtry (s.seg_a_set true w) fun w =>
    qtry (s.seg_b_set true w) fun w =>
    qtry (s.seg_c_set true w) fun w =>
    qtry (s.seg_d_set true w) fun w =>
    qtry (s.seg_e_set false w) fun w =>
    qtry (s.seg_f_set false w) fun w =>
    s.seg_g_set false w
  | 13 =>
    qtry (s.seg_a_set true w) fun w =>
    qtry (s.seg_b_set true w) fun w =>
    qtry (s.seg_c_set false w) fun w =>
    qtry (s.seg_d_set false w) fun w =>
    qtry (s.seg_e_set true w) fun w =>
    qtry (s.seg_f_set true w) fun w =>
    s.seg_g_set true w
  | 14 =>
    qtry (s.seg_a_set true w) fun w =>
    qtry (s.seg_b_set true w) fun w =>
    qtry (s.seg_c_set true w) fun w =>
    qtry (s.seg_d_set true w) fun w =>
    qtry (s.seg_e_set false w) fun w =>
    qtry (s.seg_f_set false w) fun w =>
    s.seg_g_set true w
  | 15 =>
    qtry (s.seg_a_set false w) fun w =>
    qtry (s.seg_b_set true w) fun w =>
    qtry (s.seg_c_set true w) fun w =>
    qtry (s.seg_d_set true w) fun w =>
    qtry (s.seg_e_set false w) fun w =>
    qtry (s.seg_f_set false w) fun w =>
    s.seg_g_set true w
  | _ => s.clear w

/-!
## Trace instrumentation

To observe the sequence of (segment, state) writes an operation issues,
the driver is instantiated with mock pins whose shared world is a journal
of writes.  Whether a given write succeeds is governed by an oracle
`ok : Seg → Bool → Bool`; a failing write drives nothing, so it is not
journalled.  Because the driver writes each segment at most once per
call, an oracle indexed by (segment, requested state) covers every
behaviour a `u8 → Result` pin can show within one call.
-/

/-- The seven segment labels. -/
inductive Seg : Type
  | a | b | c | d | e | f | g
deriving DecidableEq, Repr

instance : Fintype Seg :=
  ⟨⟨{Seg.a, Seg.b, Seg.c, Seg.d, Seg.e, Seg.f, Seg.g}, by decide⟩, by intro x; cases x <;> decide⟩

/-- A journal of line writes, oldest first. -/
abbrev Trace := List (Seg × Bool)

/-- Mock pin for segment `t`: a successful write appends `(t, state)` to
the journal, a failing write (as decreed by the oracle `ok`) leaves the
journal untouched and reports an error. -/
def mockPin (ok : Seg → Bool → Bool) (t : Seg) : OutputPin Trace Unit where
  set_high w := if ok t true then (w ++ [(t, true)], .ok ()) else (w, .error ())
  set_low w := if ok t false then (w ++ [(t, false)], .ok ()) else (w, .error ())

/-- The driver instantiated with the seven mock pins. -/
def mockSeg (ok : Seg → Bool → Bool) : SevenSeg Trace Unit Unit Unit Unit Unit Unit Unit :=
  SevenSeg.new (mockPin ok .a) (mockPin ok .b) (mockPin ok .c) (mockPin ok .d)
    (mockPin ok .e) (mockPin ok .f) (mockPin ok .g)

/-- Dispatch the seven segment-setter methods by label. -/
def SevenSeg.segSet (s : SevenSeg W εa εb εc εd εe εf εg) (t : Seg) (state : Bool) (w : W) :
    W × Except Unit Unit :=
  match t with
  | .a => s.seg_a_set state w
  | .b => s.seg_b_set state w
  | .c => s.seg_c_set state w
  | .d => s.seg_d_set state w
  | .e => s.seg_e_set state w
  | .f => s.seg_f_set state w
  | .g => s.seg_g_set state w

/-- Run a list of requested writes against the oracle, journalling each
successful one and stopping at the first failure. -/
def runWrites (ok : Seg → Bool → Bool) : List (Seg × Bool) → Trace → Trace × Except Unit Unit
  | [], w => (w, .ok ())
  | (t, b) :: rest, w => if ok t b then runWrites ok rest (w ++ [(t, b)]) else (w, .error ())

/-- The on/off pattern `display` requests for each recognised digit, read
off the sixteen arms of the Rust `match`, in segment order `a..g`. -/
def codePattern : Nat → List Bool
  | 0 => [true, true, true, true, true, true, false]
  | 1 => [false, false, false, false, true, true, false]
  | 2 => [true, true, false, true, true, false, true]
  | 3 => [true, false, false, true, true, true, true]
  | 4 => [false, false, true, false, true, true, true]
  | 5 => [true, false, true, true, false, true, true]
  | 6 => [true, true, true, true, false, true, true]
  | 7 => [false, false, false, true, true, true, false]
  | 8 => [true, true, true, true, true, true, true]
  | 9 => [true, false, true, true, true, true, true]
  | 10 => [false, true, true, true, true, true, true]
  | 11 => [true, true, true, false, false, true, true]
  | 12 => [true, true, true, true, false, false, false]
  | 13 => [true, true, false, false, true, true, true]
  | 14 => [true, true, true, true, false, false, true]
  | 15 => [false, true, true, true, false, false, true]
  | _ => [false, false, false, false, false, false, false]

/-- The segment labels in the driver's fixed write order. -/
def segOrder : List Seg := [.a, .b, .c, .d, .e, .f, .g]

/-- The write sequence `display num` requests. -/
def displayPlan (num : Nat) : List (Seg × Bool) := segOrder.zip (codePattern num)

/-- The write sequence `clear` requests. -/
def clearPlan : List (Seg × Bool) := segOrder.zip (List.replicate 7 false)

/-- The encoding table of spec section 4.1, transcribed from the spec's
words (1 = on, 0 = off, columns `a..g`), for comparison with the
code-derived behaviour of `display`. -/
def specTable : Nat → List Bool
  | 0 => [true, true, true, true, true, true, false]
  | 1 => [false, false, false, false, true, true, false]
  | 2 => [true, true, false, true, true, false, true]
  | 3 => [true, false, false, true, true, true, true]
  | 4 => [false, false, true, false, true, true, true]
  | 5 => [true, false, true, true, false, true, true]
  | 6 => [true, true, true, true, false, true, true]
  | 7 => [false, false, false, true, true, true, false]
  | 8 => [true, true, true, true, true, true, true]
  | 9 => [true, false, true, true, true, true, true]
  | 10 => [false, true, true, true, true, true, true]
  | 11 => [true, true, true, false, false, true, true]
  | 12 => [true, true, true, true, false, false, false]
  | 13 => [true, true, false, false, true, true, true]
  | 14 => [true, true, true, true, false, false, true]
  | 15 => [false, true, true, true, false, false, true]
  | _ => [false, false, false, false, false, false, false]

/-- How many writes in the journal `δ` target segment `t`. -/
def segWriteCount (t : Seg) (δ : Trace) : Nat :=
  (δ.filter (fun p => p.1 == t)).length

/-- The underlying pin write a segment setter performs: `set_high` when
the requested state is true, `set_low` otherwise (the `if state` of the
Rust `seg_a` .. `seg_g` methods, before the `map_err`). -/
def pinSet {ε : Type} (p : OutputPin W ε) (b : Bool) (w : W) : W × Except ε Unit :=
  if b then p.set_high w else p.set_low w

/-- The driver's public mutating operations. -/
inductive Op : Type
  | setSeg (t : Seg) (b : Bool)
  | clear
  | display (n : Nat)

/-- Whether an operation is a multi-segment one (`clear` or `display`). -/
def Op.multi : Op → Bool
  | .setSeg _ _ => false
  | .clear => true
  | .display _ => true

/-- Run one driver operation on the mock display. -/
def runOp (ok : Seg → Bool → Bool) : Op → Trace → Trace × Except Unit Unit
  | .setSeg t b => (mockSeg ok).segSet t b
  | .clear => (mockSeg ok).clear
  | .display n => (mockSeg ok).display n

/-- The write sequence an operation requests. -/
def planOp : Op → List (Seg × Bool)
  | .setSeg t b => [(t, b)]
  | .clear => clearPlan
  | .display n => displayPlan n

/-- Run a list of driver operations in order, collecting each result. -/
def runOps (ok : Seg → Bool → Bool) : List Op → Trace → Trace × List (Except Unit Unit)
  | [], w => (w, [])
  | o :: os, w =>
    let p := runOp ok o w
    let q := runOps ok os p.1
    (q.1, p.2 :: q.2)

/-- A whole client session: construct the display from the seven mock
pins (`SevenSeg::new`), run the listed operations in order against the
journal `w`, then release the display (`SevenSeg::release`).  Only the
operations take and return a world; construction and release are pure. -/
def session (ok : Seg → Bool → Bool) (ops : List Op) (w : Trace) :
    Trace × List (Except Unit Unit) ×
      (OutputPin Trace Unit × OutputPin Trace Unit × OutputPin Trace Unit ×
        OutputPin Trace Unit × OutputPin Trace Unit × OutputPin Trace Unit ×
        OutputPin Trace Unit) :=
  let s := SevenSeg.new (mockPin ok .a) (mockPin ok .b) (mockPin ok .c) (mockPin ok .d)
    (mockPin ok .e) (mockPin ok .f) (mockPin ok .g)
  let p := runOps ok ops w
  (p.1, p.2, s.release)

theorem mockSeg_segSet (ok : Seg → Bool → Bool) (t : Seg) (b : Bool) (w : Trace) :
    (mockSeg ok).segSet t b w =
      if ok t b then (w ++ [(t, b)], .ok ()) else (w, .error ()) := by
  cases t <;> cases b <;>
    simp [mockSeg, SevenSeg.segSet, SevenSeg.new, mockPin, SevenSeg.seg_a_set,
      SevenSeg.seg_b_set, SevenSeg.seg_c_set, SevenSeg.seg_d_set, SevenSeg.seg_e_set,
      SevenSeg.seg_f_set, SevenSeg.seg_g_set] <;>
    split <;> simp [discardErr]

theorem qtry_mock_segSet (ok : Seg → Bool → Bool) (t : Seg) (b : Bool) (w : Trace)
    (k : Trace → Trace × Except Unit Unit) :
    qtry ((mockSeg ok).segSet t b w) k =
      if ok t b then k (w ++ [(t, b)]) else (w, .error ()) := by
  rw [mockSeg_segSet]
  split <;> simp [qtry]

theorem runWrites_cons_mock (ok : Seg → Bool → Bool) (t : Seg) (b : Bool)
    (rest : List (Seg × Bool)) (w : Trace) :
    runWrites ok ((t, b) :: rest) w = qtry ((mockSeg ok).segSet t b w) (runWrites ok rest) := by
  rw [qtry_mock_segSet, runWrites]

theorem qtry_last (p : Trace × Except Unit Unit) :
    qtry p (fun w => (w, .ok ())) = p := by
  obtain ⟨w, r⟩ := p
  cases r with
  | ok u => cases u; rfl
  | error e => rfl

theorem runWrites_nil_fun (ok : Seg → Bool → Bool) :
    runWrites ok [] = fun w => (w, .ok ()) := rfl

theorem runWrites_cons_fun (ok : Seg → Bool → Bool) (t : Seg) (b : Bool)
    (rest : List (Seg × Bool)) :
    runWrites ok ((t, b) :: rest) =
      fun w => qtry ((mockSeg ok).segSet t b w) (runWrites ok rest) := by
  funext w
  rw [qtry_mock_segSet, runWrites]

theorem clear_eq_runWrites (ok : Seg → Bool → Bool) (w : Trace) :
    (mockSeg ok).clear w = runWrites ok clearPlan w := by
  show (mockSeg ok).clear w =
    runWrites ok [(Seg.a, false), (Seg.b, false), (Seg.c, false), (Seg.d, false),
      (Seg.e, false), (Seg.f, false), (Seg.g, false)] w
  simp only [runWrites_cons_fun, runWrites_nil_fun, SevenSeg.segSet, qtry_last,
    SevenSeg.clear]

theorem display_eq_runWrites (ok : Seg → Bool → Bool) (num : Nat) (w : Trace) :
    (mockSeg ok).display num w = runWrites ok (displayPlan num) w := by
  rcases Nat.lt_or_ge num 16 with h | h
  · interval_cases num <;>
      simp only [SevenSeg.display, displayPlan, segOrder, codePattern, List.zip_cons_cons,
        List.zip_nil_right, runWrites_cons_fun, runWrites_nil_fun, SevenSeg.segSet, qtry_last]
  · obtain ⟨m, rfl⟩ : ∃ m, num = m + 16 := ⟨num - 16, by omega⟩
    exact clear_eq_runWrites ok w

theorem runWrites_shift (ok : Seg → Bool → Bool) (ws : List (Seg × Bool)) (w : Trace) :
    runWrites ok ws w = (w ++ (runWrites ok ws []).1, (runWrites ok ws []).2) := by
  induction ws generalizing w with
  | nil => simp [runWrites]
  | cons tb rest ih =>
    obtain ⟨t, b⟩ := tb
    cases h : ok t b with
    | true =>
      rw [runWrites, if_pos h, runWrites, if_pos h]
      simp only [List.nil_append]
      rw [ih (w ++ [(t, b)]), ih [(t, b)]]
      simp
    | false =>
      rw [runWrites, if_neg (by simp [h]), runWrites, if_neg (by simp [h])]
      simp

theorem runWrites_all_ok (ok : Seg → Bool → Bool) (ws : List (Seg × Bool)) (w : Trace)
    (h : ∀ p ∈ ws, ok p.1 p.2 = true) :
    runWrites ok ws w = (w ++ ws, .ok ()) := by
  induction ws generalizing w with
  | nil => simp [runWrites]
  | cons tb rest ih =>
    obtain ⟨t, b⟩ := tb
    have ht : ok t b = true := h (t, b) (by simp)
    rw [runWrites, if_pos ht, ih (w ++ [(t, b)]) (fun p hp => h p (by simp [hp]))]
    simp

theorem runWrites_first_fail (ok : Seg → Bool → Bool) (pre : List (Seg × Bool)) (t : Seg)
    (b : Bool) (post : List (Seg × Bool)) (w : Trace)
    (hpre : ∀ p ∈ pre, ok p.1 p.2 = true) (hfail : ok t b = false) :
    runWrites ok (pre ++ (t, b) :: post) w = (w ++ pre, .error ()) := by
  induction pre generalizing w with
  | nil =>
    rw [List.nil_append, runWrites, if_neg (by simp [hfail])]
    simp
  | cons q rest ih =>
    obtain ⟨t1, b1⟩ := q
    have h1 : ok t1 b1 = true := hpre (t1, b1) (by simp)
    rw [List.cons_append, runWrites, if_pos h1,
      ih (w ++ [(t1, b1)]) (fun p hp => hpre p (by simp [hp]))]
    simp

theorem runWrites_cases (ok : Seg → Bool → Bool) (ws : List (Seg × Bool)) (w : Trace) :
    (runWrites ok ws w = (w ++ ws, .ok ()) ∧ ∀ p ∈ ws, ok p.1 p.2 = true) ∨
      ∃ pre t b post, ws = pre ++ (t, b) :: post ∧ (∀ p ∈ pre, ok p.1 p.2 = true) ∧
        ok t b = false ∧ runWrites ok ws w = (w ++ pre, .error ()) := by
  induction ws generalizing w with
  | nil => exact Or.inl ⟨by simp [runWrites], by simp⟩
  | cons tb rest ih =>
    obtain ⟨t, b⟩ := tb
    cases h : ok t b with
    | false =>
      refine Or.inr ⟨[], t, b, rest, rfl, by simp, h, ?_⟩
      rw [runWrites, if_neg (by simp [h])]
      simp
    | true =>
      rcases ih (w ++ [(t, b)]) with ⟨heq, hall⟩ | ⟨pre, t1, b1, post, hsplit, hpre, hfail, heq⟩
      · refine Or.inl ⟨?_, ?_⟩
        · rw [runWrites, if_pos h, heq]
          simp
        · intro p hp
          rcases List.mem_cons.mp hp with rfl | hp
          · exact h
          · exact hall p hp
      · refine Or.inr ⟨(t, b) :: pre, t1, b1, post, by rw [hsplit]; rfl, ?_, hfail, ?_⟩
        · intro p hp
          rcases List.mem_cons.mp hp with rfl | hp
          · exact h
          · exact hpre p hp
        · rw [runWrites, if_pos h, heq]
          simp

theorem runOp_eq_runWrites (ok : Seg → Bool → Bool) (o : Op) (w : Trace) :
    runOp ok o w = runWrites ok (planOp o) w := by
  cases o with
  | setSeg t b =>
    rw [runOp, planOp, mockSeg_segSet, runWrites]
    split
    · rw [runWrites]
    · rfl
  | clear => exact clear_eq_runWrites ok w
  | display n => exact display_eq_runWrites ok n w

theorem segWriteCount_append_le (t : Seg) (xs ys : Trace) :
    segWriteCount t xs ≤ segWriteCount t (xs ++ ys) := by
  simp [segWriteCount, List.filter_append]

theorem planOp_multi_count (o : Op) (hm : o.multi = true) (t : Seg) :
    segWriteCount t (planOp o) = 1 := by
  cases o with
  | setSeg t1 b1 => simp [Op.multi] at hm
  | clear => revert t; decide
  | display n =>
    rcases Nat.lt_or_ge n 16 with h | h
    · revert t
      interval_cases n <;> decide
    · obtain ⟨m, rfl⟩ : ∃ m, n = m + 16 := ⟨n - 16, by omega⟩
      revert t
      exact (by decide :
        ∀ u : Seg, segWriteCount u (segOrder.zip
          [false, false, false, false, false, false, false]) = 1)

theorem discardErr_spec {ε : Type} (u : Except ε Unit) :
    (discardErr u = .ok () ↔ u.isOk = true) ∧ (u.isOk = false → discardErr u = .error ()) := by
  cases u with
  | ok v => cases v; simp [discardErr, Except.isOk, Except.toBool]
  | error e => simp [discardErr, Except.isOk, Except.toBool]

theorem seg_a_set_eq (s : SevenSeg W εa εb εc εd εe εf εg) (b : Bool) (w : W) :
    s.seg_a_set b w = ((pinSet s.seg_a b w).1, discardErr (pinSet s.seg_a b w).2) := by
  cases b <;> rfl

theorem seg_b_set_eq (s : SevenSeg W εa εb εc εd εe εf εg) (b : Bool) (w : W) :
    s.seg_b_set b w = ((pinSet s.seg_b b w).1, discardErr (pinSet s.seg_b b w).2) := by
  cases b <;> rfl

theorem seg_c_set_eq (s : SevenSeg W εa εb εc εd εe εf εg) (b : Bool) (w : W) :
    s.seg_c_set b w = ((pinSet s.seg_c b w).1, discardErr (pinSet s.seg_c b w).2) := by
  cases b <;> rfl

theorem seg_d_set_eq (s : SevenSeg W εa εb εc εd εe εf εg) (b : Bool) (w : W) :
    s.seg_d_set b w = ((pinSet s.seg_d b w).1, discardErr (pinSet s.seg_d b w).2) := by
  cases b <;> rfl

theorem seg_e_set_eq (s : SevenSeg W εa εb εc εd εe εf εg) (b : Bool) (w : W) :
    s.seg_e_set b w = ((pinSet s.seg_e b w).1, discardErr (pinSet s.seg_e b w).2) := by
  cases b <;> rfl

theorem seg_f_set_eq (s : SevenSeg W εa εb εc εd εe εf εg) (b : Bool) (w : W) :
    s.seg_f_set b w = ((pinSet s.seg_f b w).1, discardErr (pinSet s.seg_f b w).2) := by
  cases b <;> rfl

theorem seg_g_set_eq (s : SevenSeg W εa εb εc εd εe εf εg) (b : Bool) (w : W) :
    s.seg_g_set b w = ((pinSet s.seg_g b w).1, discardErr (pinSet s.seg_g b w).2) := by
  cases b <;> rfl

/-- C1: for every digit value `n` with `0 ≤ n ≤ 15`, when no underlying
write fails, `display n` issues exactly the on/off segment writes given
by the encoding table of spec section 4.1 (digit 0 turns `a..f` on and
`g` off; digit 8 turns all seven on; and so on), in the fixed order
`a, b, c, d, e, f, g`, and succeeds. -/
theorem display_matches_spec_table (ok : Seg → Bool → Bool) (n : Nat) (w : Trace)
    (hn : n < 16) (hok : ∀ t b, ok t b = true) :
    (mockSeg ok).display n w = (w ++ segOrder.zip (specTable n), .ok ()) := by
  rw [display_eq_runWrites, runWrites_all_ok ok _ w (fun p _ => hok p.1 p.2)]
  have h16 : ∀ m, m < 16 → displayPlan m = segOrder.zip (specTable m) := by decide
  rw [h16 n hn]

/-- Witness for C1: digit 0 on always-succeeding pins writes `a..f` on
and `g` off, in order. -/
theorem display_matches_spec_table_witness :
    (mockSeg (fun _ _ => true)).display 0 [] =
      ([(Seg.a, true), (Seg.b, true), (Seg.c, true), (Seg.d, true), (Seg.e, true),
        (Seg.f, true), (Seg.g, false)], .ok ()) :=
  display_matches_spec_table (fun _ _ => true) 0 [] (by decide) (fun _ _ => rfl)

/-- C2: during `clear` or `display` of any value, if the underlying write
for some segment fails while every earlier write in the fixed order
succeeds, then exactly the earlier segments have already been written, in
order, no later segment is written, and the operation immediately
returns the failure (no rollback, no retry). -/
theorem multi_op_fail_fast (ok : Seg → Bool → Bool) (o : Op) (w : Trace)
    (pre : List (Seg × Bool)) (t : Seg) (b : Bool) (post : List (Seg × Bool))
    (_hm : o.multi = true) (hplan : planOp o = pre ++ (t, b) :: post)
    (hpre : ∀ p ∈ pre, ok p.1 p.2 = true) (hfail : ok t b = false) :
    runOp ok o w = (w ++ pre, .error ()) := by
  rw [runOp_eq_runWrites, hplan, runWrites_first_fail ok pre t b post w hpre hfail]

/-- Witness for C2, the spec's own example: during `display 5`, a failing
write to segment `d` leaves exactly `a, b, c` written (in order), `e, f,
g` unwritten, and the call fails. -/
theorem multi_op_fail_fast_witness :
    runOp (fun t _ => t != Seg.d) (.display 5) [] =
      ([(Seg.a, true), (Seg.b, false), (Seg.c, true)], .error ()) :=
  multi_op_fail_fast (fun t _ => t != Seg.d) (.display 5) []
    [(Seg.a, true), (Seg.b, false), (Seg.c, true)] Seg.d true
    [(Seg.e, false), (Seg.f, true), (Seg.g, true)] rfl (by decide) (by decide) rfl

/-- C3: for every input value `n ≥ 16` (every `u8` outside `0..=15`),
`display n` is literally the same operation as `clear`, for arbitrary
pins: identical writes issued and identical result. -/
theorem display_out_of_range_eq_clear (s : SevenSeg W εa εb εc εd εe εf εg) (n : Nat)
    (hn : 16 ≤ n) (w : W) :
    s.display n w = s.clear w := by
  obtain ⟨m, rfl⟩ : ∃ m, n = m + 16 := ⟨n - 16, by omega⟩
  rfl

/-- Witness for C3 at `n = 100` on the mock display. -/
theorem display_out_of_range_eq_clear_witness :
    (mockSeg (fun _ _ => true)).display 100 [] = (mockSeg (fun _ _ => true)).clear [] :=
  display_out_of_range_eq_clear (mockSeg (fun _ _ => true)) 100 (by decide) []

/-- C4: when no underlying write fails, `clear` issues exactly seven
writes, each driving a segment to the off (low) state, in the fixed
order `a, b, c, d, e, f, g`, and returns success. -/
theorem clear_all_off (ok : Seg → Bool → Bool) (w : Trace)
    (hok : ∀ t, ok t false = true) :
    (mockSeg ok).clear w =
      (w ++ [(Seg.a, false), (Seg.b, false), (Seg.c, false), (Seg.d, false), (Seg.e, false),
        (Seg.f, false), (Seg.g, false)], .ok ()) := by
  have hmem : ∀ p ∈ clearPlan, p.2 = false := by decide
  rw [clear_eq_runWrites,
    runWrites_all_ok ok clearPlan w (fun p hp => by rw [hmem p hp]; exact hok p.1)]
  rfl

/-- Witness for C4 on always-succeeding pins. -/
theorem clear_all_off_witness :
    (mockSeg (fun _ _ => true)).clear [] =
      ([(Seg.a, false), (Seg.b, false), (Seg.c, false), (Seg.d, false), (Seg.e, false),
        (Seg.f, false), (Seg.g, false)], .ok ()) :=
  clear_all_off (fun _ _ => true) [] (fun _ => rfl)

/-- C5: releasing a freshly constructed display hands back exactly the
seven pin resources given at construction, unmodified and in the same
order; neither `new` nor `release` takes or returns a world, so neither
issues any line write. -/
theorem release_new_roundtrip (a : OutputPin W εa) (b : OutputPin W εb) (c : OutputPin W εc)
    (d : OutputPin W εd) (e : OutputPin W εe) (f : OutputPin W εf) (g : OutputPin W εg) :
    (SevenSeg.new a b c d e f g).release = (a, b, c, d, e, f, g) := rfl

/-- C6: a segment setter issues exactly one write, to its own segment's
line with the requested state — journalled as the single entry
`(t, state)` when the pin write succeeds and as nothing when it fails —
and never touches any other segment's line. -/
theorem segSet_single_write (ok : Seg → Bool → Bool) (t : Seg) (state : Bool) (w : Trace) :
    (mockSeg ok).segSet t state w =
      if ok t state then (w ++ [(t, state)], .ok ()) else (w, .error ()) :=
  mockSeg_segSet ok t state w

/-- C7: each of the seven segment setters leaves the world exactly as the
underlying pin write left it, succeeds exactly when that write succeeds,
and collapses any pin failure to the single information-free error `()`
(the error type is `Unit`, so the original error value is discarded). -/
theorem segSet_collapses_error (s : SevenSeg W εa εb εc εd εe εf εg) (b : Bool) (w : W) :
    ((s.seg_a_set b w).1 = (pinSet s.seg_a b w).1 ∧
      ((s.seg_a_set b w).2 = .ok () ↔ (pinSet s.seg_a b w).2.isOk = true) ∧
      ((pinSet s.seg_a b w).2.isOk = false → (s.seg_a_set b w).2 = .error ())) ∧
    ((s.seg_b_set b w).1 = (pinSet s.seg_b b w).1 ∧
      ((s.seg_b_set b w).2 = .ok () ↔ (pinSet s.seg_b b w).2.isOk = true) ∧
      ((pinSet s.seg_b b w).2.isOk = false → (s.seg_b_set b w).2 = .error ())) ∧
    ((s.seg_c_set b w).1 = (pinSet s.seg_c b w).1 ∧
      ((s.seg_c_set b w).2 = .ok () ↔ (pinSet s.seg_c b w).2.isOk = true) ∧
      ((pinSet s.seg_c b w).2.isOk = false → (s.seg_c_set b w).2 = .error ())) ∧
    ((s.seg_d_set b w).1 = (pinSet s.seg_d b w).1 ∧
      ((s.seg_d_set b w).2 = .ok () ↔ (pinSet s.seg_d b w).2.isOk = true) ∧
      ((pinSet s.seg_d b w).2.isOk = false → (s.seg_d_set b w).2 = .error ())) ∧
    ((s.seg_e_set b w).1 = (pinSet s.seg_e b w).1 ∧
      ((s.seg_e_set b w).2 = .ok () ↔ (pinSet s.seg_e b w).2.isOk = true) ∧
      ((pinSet s.seg_e b w).2.isOk = false → (s.seg_e_set b w).2 = .error ())) ∧
    ((s.seg_f_set b w).1 = (pinSet s.seg_f b w).1 ∧
      ((s.seg_f_set b w).2 = .ok () ↔ (pinSet s.seg_f b w).2.isOk = true) ∧
      ((pinSet s.seg_f b w).2.isOk = false → (s.seg_f_set b w).2 = .error ())) ∧
    ((s.seg_g_set b w).1 = (pinSet s.seg_g b w).1 ∧
      ((s.seg_g_set b w).2 = .ok () ↔ (pinSet s.seg_g b w).2.isOk = true) ∧
      ((pinSet s.seg_g b w).2.isOk = false → (s.seg_g_set b w).2 = .error ())) := by
  refine ⟨?_, ?_, ?_, ?_, ?_, ?_, ?_⟩
  · rw [seg_a_set_eq]
    exact ⟨rfl, (discardErr_spec _).1, (discardErr_spec _).2⟩
  · rw [seg_b_set_eq]
    exact ⟨rfl, (discardErr_spec _).1, (discardErr_spec _).2⟩
  · rw [seg_c_set_eq]
    exact ⟨rfl, (discardErr_spec _).1, (discardErr_spec _).2⟩
  · rw [seg_d_set_eq]
    exact ⟨rfl, (discardErr_spec _).1, (discardErr_spec _).2⟩
  · rw [seg_e_set_eq]
    exact ⟨rfl, (discardErr_spec _).1, (discardErr_spec _).2⟩
  · rw [seg_f_set_eq]
    exact ⟨rfl, (discardErr_spec _).1, (discardErr_spec _).2⟩
  · rw [seg_g_set_eq]
    exact ⟨rfl, (discardErr_spec _).1, (discardErr_spec _).2⟩

/-- Witness for C7: on a mock whose every write fails, setting segment
`a` high fails with the uniform error `()`. -/
theorem segSet_collapses_error_witness :
    ((mockSeg (fun _ _ => false)).seg_a_set true []).2 = .error () :=
  (segSet_collapses_error (mockSeg (fun _ _ => false)) true []).1.2.2 rfl

/-- C8: the driver is stateless beyond its seven pin handles — the writes
an operation appends to the journal and the result it returns are the
same after an arbitrary prior history `w` as on a fresh journal, so two
calls with the same arguments issue identical write sequences regardless
of earlier operations. -/
theorem op_history_independent (ok : Seg → Bool → Bool) (o : Op) (w : Trace) :
    runOp ok o w = (w ++ (runOp ok o []).1, (runOp ok o []).2) := by
  simp only [runOp_eq_runWrites]
  exact runWrites_shift ok (planOp o) w

/-- C9: construction issues no writes: a session that constructs the
display from the seven pins, performs no operation, and releases it,
leaves the journal — hence every line's electrical state — exactly as it
was, and returns the pins. -/
theorem construct_no_writes (ok : Seg → Bool → Bool) (w : Trace) :
    session ok [] w =
      (w, [], (mockPin ok .a, mockPin ok .b, mockPin ok .c, mockPin ok .d, mockPin ok .e,
        mockPin ok .f, mockPin ok .g)) := rfl

/-- C10: within one `clear` or `display` call each segment is written at
most once, and a successful call realises the call's full plan: each
segment written exactly once, with the state that call requested for
it. -/
theorem multi_op_writes_once (ok : Seg → Bool → Bool) (o : Op) (w : Trace)
    (hm : o.multi = true) :
    ∃ δ r, runOp ok o w = (w ++ δ, r) ∧ (∀ t : Seg, segWriteCount t δ ≤ 1) ∧
      (r = .ok () → δ = planOp o ∧ ∀ t : Seg, segWriteCount t (planOp o) = 1) := by
  rcases runWrites_cases ok (planOp o) w with ⟨heq, hall⟩ |
    ⟨pre, t, b, post, hsplit, hpre, hfail, heq⟩
  · refine ⟨planOp o, .ok (), by rw [runOp_eq_runWrites, heq], ?_, ?_⟩
    · intro t
      exact le_of_eq (planOp_multi_count o hm t)
    · intro _
      exact ⟨rfl, planOp_multi_count o hm⟩
  · refine ⟨pre, .error (), by rw [runOp_eq_runWrites, heq], ?_, ?_⟩
    · intro t
      calc segWriteCount t pre ≤ segWriteCount t (planOp o) := by
            rw [hsplit]; exact segWriteCount_append_le t pre _
        _ = 1 := planOp_multi_count o hm t
    · intro hr
      exact (Except.noConfusion hr)

/-- Witness for C10 at `clear` on always-succeeding pins. -/
theorem multi_op_writes_once_witness :
    ∃ δ r, runOp (fun _ _ => true) .clear [] = ([] ++ δ, r) ∧
      (∀ t : Seg, segWriteCount t δ ≤ 1) ∧
      (r = .ok () → δ = planOp .clear ∧ ∀ t : Seg, segWriteCount t (planOp .clear) = 1) :=
  multi_op_writes_once (fun _ _ => true) .clear [] rfl
